import Mathlib

/-!
# Verification of the FastAPI performance-monitoring service

Shallow embedding of `src/app/main.py` (metrics middleware, CRUD endpoints,
health check, metric declarations) and `src/tests/loadtest.py` (concurrent
load driver), together with theorems settling the specification claims.

Conventions:
* Latencies and histogram bucket boundaries are rationals (`ℚ`), standing for
  the exact decimal constants in the source.
* The Prometheus collectors are modelled as explicit state; the middleware is
  modelled both as an event trace (to speak about ordering and about what is
  skipped when the handler raises) and as a state transformer obtained by
  folding the trace.
* `crud.py`, `schemas.py` and `database.py` are not part of the provided
  sources; the crud collaborator functions used by the endpoints are modelled
  from the spec and marked as such in their doc comments.
-/

namespace FastAPIMon

/-- Label triple attached to `http_requests_total` and
`http_request_duration_seconds` in `main.py`: label names
`method`, `endpoint`, `http_status`. -/
structure Labels where
  method : String
  endpoint : String
  http_status : Nat
deriving DecidableEq, Repr

/-- Declaration-time data of a Prometheus histogram: metric name, label
names, bucket boundaries. -/
structure HistogramDecl where
  name : String
  labelnames : List String
  buckets : List ℚ
deriving DecidableEq, Repr

/-- Declaration-time data of a Prometheus counter. -/
structure CounterDecl where
  name : String
  labelnames : List String
deriving DecidableEq, Repr

/-- `REQUEST_COUNT = Counter("http_requests_total", ..., ["method", "endpoint", "http_status"])` from `main.py`. -/
def REQUEST_COUNT : CounterDecl :=
  { name := "http_requests_total"
    labelnames := ["method", "endpoint", "http_status"] }

/-- `REQUEST_LATENCY = Histogram("http_request_duration_seconds", ...,
["method", "endpoint", "http_status"], buckets=[0.1, 0.3, 0.5, 1, 3, 5])`
from `main.py`. -/
def REQUEST_LATENCY : HistogramDecl :=
  { name := "http_request_duration_seconds"
    labelnames := ["method", "endpoint", "http_status"]
    buckets := [0.1, 0.3, 0.5, 1, 3, 5] }

/-- Aggregate state of the three collectors: the counter value per label
triple, the list of latency observations per label triple, and the
`inprogress_requests` gauge. -/
structure MetricsState where
  request_count : Labels → Nat
  latency_obs : Labels → List ℚ
  inprogress : Int

/-- Collector state at process start: all zero / empty. -/
def initialState : MetricsState :=
  { request_count := fun _ => 0
    latency_obs := fun _ => []
    inprogress := 0 }

/-- An inbound HTTP request as seen by the middleware: the method, the raw
URL path (`request.url.path` in the source), and the route template the
router matched it to (e.g. `/data/\x7bitem_id\x7d` for path `/data/42`).
The source only ever reads `method` and `urlPath`; `routeTemplate` is
carried so that claims about route-template labelling can be stated. -/
structure Request where
  method : String
  urlPath : String
  routeTemplate : String
deriving DecidableEq, Repr

/-- Outcome of `await call_next(request)`: either the downstream app returns
a response with a status code (this includes `HTTPException`s, which the
framework's exception handler has already converted to responses), or an
unhandled exception propagates out of `call_next`. -/
inductive HandlerOutcome
  | response (status : Nat)
  | raised
deriving DecidableEq, Repr

/-- Observable events of one pass through `metrics_middleware`. -/
inductive Event
  | gaugeInc
  | handlerInvoke
  | counterInc (l : Labels)
  | histObserve (l : Labels) (latency : ℚ)
  | gaugeDec
deriving DecidableEq, Repr

/-- Event trace of `metrics_middleware` in `main.py` on one request.  The
source is the linear sequence
`IN_PROGRESS.inc(); start = time.time(); response = await call_next(request);
latency = ...; REQUEST_COUNT.labels(method, url.path, status).inc();
REQUEST_LATENCY.labels(method, url.path, status).observe(latency);
IN_PROGRESS.dec(); return response` with no `try`/`finally`: when
`call_next` raises, execution of the middleware body stops at the handler
invocation and everything after it is skipped. -/
def metrics_middleware_trace (req : Request) (out : HandlerOutcome)
    (latency : ℚ) : List Event :=
  match out with
  | .response s =>
      [ Event.gaugeInc,
        Event.handlerInvoke,
        Event.counterInc ⟨req.method, req.urlPath, s⟩,
        Event.histObserve ⟨req.method, req.urlPath, s⟩ latency,
        Event.gaugeDec ]
  | .raised =>
      [ Event.gaugeInc, Event.handlerInvoke ]

/-- Effect of a single middleware event on the collector state. -/
def applyEvent (st : MetricsState) : Event → MetricsState
  | .gaugeInc => { st with inprogress := st.inprogress + 1 }
  | .handlerInvoke => st
  | .counterInc l =>
      { st with request_count :=
          fun l2 => if l2 = l then st.request_count l2 + 1 else st.request_count l2 }
  | .histObserve l x =>
      { st with latency_obs :=
          fun l2 => if l2 = l then x :: st.latency_obs l2 else st.latency_obs l2 }
  | .gaugeDec => { st with inprogress := st.inprogress - 1 }

/-- Fold a trace of middleware events over the collector state. -/
def applyTrace (st : MetricsState) (es : List Event) : MetricsState :=
  es.foldl applyEvent st

/-- Net collector state after the middleware processes one request. -/
def processRequest (st : MetricsState) (req : Request) (out : HandlerOutcome)
    (latency : ℚ) : MetricsState :=
  applyTrace st (metrics_middleware_trace req out latency)

/-- One request of a workload: the request, its handler outcome and its
measured latency. -/
structure RequestRecord where
  req : Request
  out : HandlerOutcome
  latency : ℚ
deriving DecidableEq, Repr

/-- Collector state after the middleware processes a sequence of requests. -/
def processAll (st : MetricsState) (reqs : List RequestRecord) : MetricsState :=
  reqs.foldl (fun s r => processRequest s r.req r.out r.latency) st

/-- Whether a request completed (its handler returned a response) with the
given label triple — the labels the middleware would attach: method, raw
URL path, status. -/
def matchesCompleted (l : Labels) (r : RequestRecord) : Bool :=
  match r.out with
  | .response s => decide (Labels.mk r.req.method r.req.urlPath s = l)
  | .raised => false

/-- Number of completed requests in a workload carrying the label triple. -/
def completedMatching (l : Labels) (reqs : List RequestRecord) : Nat :=
  reqs.countP (matchesCompleted l)

/-- Is this event a counter increment? -/
def Event.isCounterInc : Event → Bool
  | .counterInc _ => true
  | _ => false

/-- Is this event a histogram observation? -/
def Event.isHistObserve : Event → Bool
  | .histObserve _ _ => true
  | _ => false

theorem processRequest_request_count (st : MetricsState) (r : RequestRecord)
    (l : Labels) :
    (processRequest st r.req r.out r.latency).request_count l =
      st.request_count l + (if matchesCompleted l r then 1 else 0) := by
  rcases r with ⟨req, out, lat⟩
  cases out with
  | response s =>
      simp only [processRequest, metrics_middleware_trace, applyTrace,
        List.foldl, applyEvent, matchesCompleted]
      by_cases h : Labels.mk req.method req.urlPath s = l
      · subst h
        simp
      · have h2 : ¬ l = Labels.mk req.method req.urlPath s := fun hl => h hl.symm
        simp [h, h2]
  | raised =>
      simp [processRequest, metrics_middleware_trace, applyTrace,
        List.foldl, applyEvent, matchesCompleted]

theorem processRequest_latency_obs_length (st : MetricsState)
    (r : RequestRecord) (l : Labels) :
    ((processRequest st r.req r.out r.latency).latency_obs l).length =
      (st.latency_obs l).length + (if matchesCompleted l r then 1 else 0) := by
  rcases r with ⟨req, out, lat⟩
  cases out with
  | response s =>
      simp only [processRequest, metrics_middleware_trace, applyTrace,
        List.foldl, applyEvent, matchesCompleted]
      by_cases h : Labels.mk req.method req.urlPath s = l
      · subst h
        simp
      · have h2 : ¬ l = Labels.mk req.method req.urlPath s := fun hl => h hl.symm
        simp [h, h2]
  | raised =>
      simp [processRequest, metrics_middleware_trace, applyTrace,
        List.foldl, applyEvent, matchesCompleted]

theorem processAll_request_count (st : MetricsState)
    (reqs : List RequestRecord) (l : Labels) :
    (processAll st reqs).request_count l =
      st.request_count l + completedMatching l reqs := by
  induction reqs generalizing st with
  | nil => simp [processAll, completedMatching]
  | cons r rs ih =>
      simp only [processAll, List.foldl] at *
      rw [ih, processRequest_request_count]
      simp only [completedMatching, List.countP_cons]
      cases h : matchesCompleted l r
      · simp [h]
      · simp [h]
        omega

theorem processAll_latency_obs_length (st : MetricsState)
    (reqs : List RequestRecord) (l : Labels) :
    ((processAll st reqs).latency_obs l).length =
      (st.latency_obs l).length + completedMatching l reqs := by
  induction reqs generalizing st with
  | nil => simp [processAll, completedMatching]
  | cons r rs ih =>
      simp only [processAll, List.foldl] at *
      rw [ih, processRequest_latency_obs_length]
      simp only [completedMatching, List.countP_cons]
      cases h : matchesCompleted l r
      · simp [h]
      · simp [h]
        omega

/-! ## CRUD endpoints and health check (`main.py`) -/

/-- A persisted user-data record (`schemas.UserData`): server-assigned
integer id plus the three mutable fields. -/
structure UserData where
  id : Nat
  name : String
  email : String
  message : String
deriving DecidableEq, Repr

/-- A create/update request body (`schemas.UserDataCreate`):
`\x7bname, email, message\x7d`. -/
structure UserDataCreate where
  name : String
  email : String
  message : String
deriving DecidableEq, Repr

/-- The store contents, in storage order. -/
abbrev DB := List UserData

/-- Modelled from the spec: `crud.update_user_data` (file `app/crud.py` is
not among the provided sources).  Spec: "update(id, input) → replaces all
mutable fields of the record matching id. Returns NotFound if no such id
exists. Fully overwrites (no partial-patch semantics)."  Returns the
updated record, or `none` when no record has the id (the endpoint turns
`none` into a 404). -/
def crud.update_user_data (db : DB) (item_id : Nat) (d : UserDataCreate) :
    Option UserData :=
  match db.find? (fun r => r.id == item_id) with
  | none => none
  | some r => some { r with name := d.name, email := d.email, message := d.message }

/-- Modelled from the spec: `crud.delete_user_data` (file `app/crud.py` is
not among the provided sources).  Spec: "delete(id) → removes the record
matching id, returns the deleted record. Returns NotFound if no such id
exists."  Returns the deleted record, or `none` when no record has the id. -/
def crud.delete_user_data (db : DB) (item_id : Nat) : Option UserData :=
  db.find? (fun r => r.id == item_id)

/-- Modelled from the spec: `crud.get_user_data` (file `app/crud.py` is not
among the provided sources).  Spec: "list(skip, limit) → returns up to
`limit` records starting after `skip`, in storage-defined order."  The
result also records the `skip`/`limit` values the store query received,
so that pass-through claims can be stated. -/
def crud.get_user_data (db : DB) (skip limit : Int) :
    (Int × Int) × List UserData :=
  ((skip, limit), (db.drop skip.toNat).take limit.toNat)

/-- Result of a CRUD endpoint: a successful response with a status code and
body, or an `HTTPException(status, detail)`. -/
inductive ApiResult (α : Type)
  | ok (status : Nat) (body : α)
  | httpError (status : Nat) (detail : String)
deriving DecidableEq, Repr

/-- `update_data` from `main.py`: calls `crud.update_user_data`; raises
`HTTPException(404, "Item not found")` when it returns nothing, otherwise
responds 200 with the updated record. -/
def update_data (db : DB) (item_id : Nat) (d : UserDataCreate) :
    ApiResult UserData :=
  match crud.update_user_data db item_id d with
  | none => .httpError 404 "Item not found"
  | some r => .ok 200 r

/-- `delete_data` from `main.py`: calls `crud.delete_user_data`; raises
`HTTPException(404, "Item not found")` when it returns nothing, otherwise
responds 200 with the deleted record. -/
def delete_data (db : DB) (item_id : Nat) : ApiResult UserData :=
  match crud.delete_user_data db item_id with
  | none => .httpError 404 "Item not found"
  | some r => .ok 200 r

/-- Declaration-time data of a FastAPI integer query parameter: its default
and the optional `ge`/`le` bounds.  `read_data` in `main.py` declares
`skip: int = 0, limit: int = 100` with no bounds. -/
structure IntParamDecl where
  default : Int
  ge : Option Int
  le : Option Int
deriving DecidableEq, Repr

/-- The `skip` parameter of `read_data`: default 0, no bounds. -/
def skipDecl : IntParamDecl := { default := 0, ge := none, le := none }

/-- The `limit` parameter of `read_data`: default 100, no bounds. -/
def limitDecl : IntParamDecl := { default := 100, ge := none, le := none }

/-- FastAPI's handling of a declared integer query parameter: an absent
parameter takes the default; a present integer value is rejected with a
422 validation error only when it violates a declared `ge`/`le` bound. -/
def resolveIntParam (p : IntParamDecl) (v : Option Int) : Except String Int :=
  let x := v.getD p.default
  match p.ge with
  | some g => if x < g then .error "validation error 422" else .ok x
  | none =>
    match p.le with
    | some u => if u < x then .error "validation error 422" else .ok x
    | none => .ok x

/-- `read_data` from `main.py`: resolves the `skip` and `limit` query
parameters per their declarations and passes them to
`crud.get_user_data db skip limit` unchanged. -/
def read_data (db : DB) (skipParam limitParam : Option Int) :
    Except String ((Int × Int) × List UserData) := do
  let skip ← resolveIntParam skipDecl skipParam
  let limit ← resolveIntParam limitDecl limitParam
  pure (crud.get_user_data db skip limit)

/-- Body of a health-check response. -/
structure HealthBody where
  status : String
  database : String
  detail : Option String
deriving DecidableEq, Repr

/-- `health_check` from `main.py`: runs the liveness probe
(`db.execute(text("SELECT 1"))`, whose outcome is the `probe` argument)
inside a `try`; on success returns 200 with
`\x7bstatus: ok, database: reachable\x7d`; on any exception returns a
`JSONResponse` with status 500 and
`\x7bstatus: error, database: unreachable, detail: str(e)\x7d`.
Total: no outcome of the probe escapes as an exception. -/
def health_check (probe : Except String Unit) : Nat × HealthBody :=
  match probe with
  | .ok _ => (200, { status := "ok", database := "reachable", detail := none })
  | .error e =>
      (500, { status := "error", database := "unreachable", detail := some e })

/-! ## Load driver (`tests/loadtest.py`) -/

/-- `METRICS_EVERY = 10` — fetch `/metrics` every N ops. -/
def METRICS_EVERY : Nat := 10

/-- `CONCURRENCY = 10` — number of concurrent clients. -/
def CONCURRENCY : Nat := 10

/-- `REQUESTS_PER_CLIENT = 100` — operations per client. -/
def REQUESTS_PER_CLIENT : Nat := 100

/-- A CRUD operation kind drawn by `random.choices` over `OP_WEIGHTS`. -/
inductive Op
  | create
  | read
  | update
  | delete
deriving DecidableEq, Repr

/-- `OP_WEIGHTS` — relative frequency of each CRUD op. -/
def OP_WEIGHTS : Op → Nat
  | .create => 2
  | .read => 5
  | .update => 2
  | .delete => 1

/-- An HTTP request issued by a worker (bodies elided: only the method and
path matter for the claims). -/
inductive HttpReq
  | post (path : String)
  | get (path : String)
  | put (path : String)
  | del (path : String)
deriving DecidableEq, Repr

/-- Resolution of the nondeterminism of one worker iteration: the operation
drawn, whether the fetch (`GET /data`) raises, the list it returns when it
does not, the index drawn by `random.choice`, whether the mutating call
(`POST`/`PUT`/`DELETE`) raises, and whether the `/metrics` scrape raises. -/
structure IterEnv where
  op : Op
  fetchFails : Option String
  listItems : List UserData
  pick : Nat
  actFails : Option String
  scrapeFails : Option String
deriving DecidableEq, Repr

/-- The element `random.choice(items)` picks, resolved by the drawn index
(`random.choice` picks uniformly among the `items.length` positions). -/
def chosenItem (items : List UserData) (pick : Nat) (h : items ≠ []) :
    UserData :=
  items.get ⟨pick % items.length, Nat.mod_lt _ (List.length_pos.mpr h)⟩

/-- The CRUD part of the `try` block of one worker iteration (everything
before the `/metrics` scrape): the HTTP calls it attempts, in order, and
whether it raised.
* `create`: `POST /data` with a synthesized payload.
* `read`: `GET /data`.
* `update`: `GET /data`; if the returned list is nonempty, pick a random
  item and `PUT /data/<id>`; if empty, nothing more.
* `delete`: like `update` with `DELETE /data/<id>`.
A call that raises still appears in the attempt list; everything after the
raising call is skipped, as the exception jumps to the worker's `except`. -/
def opPhase (env : IterEnv) : List HttpReq × Except String Unit :=
  match env.op with
  | .create =>
      match env.actFails with
      | some e => ([.post "/data"], .error e)
      | none => ([.post "/data"], .ok ())
  | .read =>
      match env.fetchFails with
      | some e => ([.get "/data"], .error e)
      | none => ([.get "/data"], .ok ())
  | .update =>
      match env.fetchFails with
      | some e => ([.get "/data"], .error e)
      | none =>
        if h : env.listItems = [] then ([.get "/data"], .ok ())
        else
          let item := chosenItem env.listItems env.pick h
          match env.actFails with
          | some e => ([.get "/data", .put ("/data/" ++ toString item.id)], .error e)
          | none => ([.get "/data", .put ("/data/" ++ toString item.id)], .ok ())
  | .delete =>
      match env.fetchFails with
      | some e => ([.get "/data"], .error e)
      | none =>
        if h : env.listItems = [] then ([.get "/data"], .ok ())
        else
          let item := chosenItem env.listItems env.pick h
          match env.actFails with
          | some e => ([.get "/data", .del ("/data/" ++ toString item.id)], .error e)
          | none => ([.get "/data", .del ("/data/" ++ toString item.id)], .ok ())

/-- The whole `try` block of iteration `i`: the CRUD part, then — only if it
did not raise — the `/metrics` scrape when `i % METRICS_EVERY == 0`. -/
def tryBody (i : Nat) (env : IterEnv) : List HttpReq × Except String Unit :=
  match opPhase env with
  | (reqs, .error e) => (reqs, .error e)
  | (reqs, .ok _) =>
      if i % METRICS_EVERY == 0 then
        match env.scrapeFails with
        | some e => (reqs ++ [.get "/metrics"], .error e)
        | none => (reqs ++ [.get "/metrics"], .ok ())
      else (reqs, .ok ())

/-- What one loop iteration leaves behind: the HTTP calls attempted and the
error message printed by the `except` clause, if any. -/
structure IterLog where
  requests : List HttpReq
  errored : Option String
deriving DecidableEq, Repr

/-- One iteration of the worker loop: run the `try` block; any exception is
caught by `except Exception as e` and logged; the loop then continues. -/
def runIter (i : Nat) (env : IterEnv) : IterLog :=
  match tryBody i env with
  | (reqs, .ok _) => { requests := reqs, errored := none }
  | (reqs, .error e) => { requests := reqs, errored := some e }

/-- `worker` from `loadtest.py`: runs iterations `i = 0, ..., m - 1`
sequentially, each against the environment `envs i`. -/
def worker (m : Nat) (envs : Nat → IterEnv) : List IterLog :=
  (List.range m).map (fun i => runIter i (envs i))

/-- `main` from `loadtest.py`: spawns `n` workers (`client0`, ...,
`client<n-1>`), each running `m` operations, and gathers them all. -/
def loadMain (n m : Nat) (envs : Nat → Nat → IterEnv) : List (List IterLog) :=
  (List.range n).map (fun w => worker m (envs w))

/-- Is an attempted call a `GET /metrics` scrape? -/
def HttpReq.isScrape : HttpReq → Bool
  | .get p => p == "/metrics"
  | _ => false

/-- Number of `/metrics` scrapes among a list of attempted calls. -/
def countScrapes (reqs : List HttpReq) : Nat :=
  reqs.countP HttpReq.isScrape

/-- Is an attempted call a mutating `PUT` or `DELETE`? -/
def HttpReq.isMutation : HttpReq → Bool
  | .put _ => true
  | .del _ => true
  | _ => false

/-! ## Claim theorems -/

/-- C1: the claim says the in-progress gauge is decremented exactly once
after the handler completes "regardless of whether the handler returns a
response or raises an error", so that the gauge returns to its pre-request
value.  The middleware body is a linear sequence with no `try`/`finally`:
when `call_next` raises, `IN_PROGRESS.dec()` is skipped and the gauge is
left one above its pre-request value, while on a returned response the
gauge does come back to its pre-request value and the increment does
strictly precede the handler invocation.  This theorem evaluates the code
at the failing input (a request whose handler raises). -/
theorem C1_gauge_leaks_when_handler_raises :
    (processRequest initialState ⟨"GET", "/data", "/data"⟩ .raised 0).inprogress = 1 ∧
    Event.gaugeDec ∉ metrics_middleware_trace ⟨"GET", "/data", "/data"⟩ .raised 0 ∧
    (metrics_middleware_trace ⟨"GET", "/data", "/data"⟩ .raised 0).take 2 =
      [Event.gaugeInc, Event.handlerInvoke] ∧
    (processRequest initialState ⟨"GET", "/data", "/data"⟩ (.response 200) 0).inprogress = 0 := by
  refine ⟨rfl, by decide, rfl, rfl⟩

/-- C2: the claim says counter increments and histogram observations are
labeled with the normalized route template (e.g. `/data/\x7bitem_id\x7d`),
not the raw path.  The middleware labels with `request.url.path`: for a
request to raw path `/data/42` matched by route template
`/data/\x7bitem_id\x7d`, the recorded label is `/data/42` and no sample
carries the template label.  This theorem evaluates the code at that
failing input. -/
theorem C2_labels_carry_raw_path_not_route_template :
    Event.counterInc ⟨"GET", "/data/42", 200⟩ ∈
      metrics_middleware_trace ⟨"GET", "/data/42", "/data/\x7bitem_id\x7d"⟩ (.response 200) 0 ∧
    Event.counterInc ⟨"GET", "/data/\x7bitem_id\x7d", 200⟩ ∉
      metrics_middleware_trace ⟨"GET", "/data/42", "/data/\x7bitem_id\x7d"⟩ (.response 200) 0 ∧
    (processRequest initialState ⟨"GET", "/data/42", "/data/\x7bitem_id\x7d"⟩
        (.response 200) 0).request_count ⟨"GET", "/data/42", 200⟩ = 1 ∧
    (processRequest initialState ⟨"GET", "/data/42", "/data/\x7bitem_id\x7d"⟩
        (.response 200) 0).request_count ⟨"GET", "/data/\x7bitem_id\x7d", 200⟩ = 0 := by
  refine ⟨by decide, by decide, rfl, rfl⟩

/-- C3 counterexample: the claim says the middleware records exactly one
counter increment and one histogram observation for every request
"regardless of whether the handler succeeds or throws".  When the handler
raises, the linear middleware body stops at `call_next` and records
nothing: the trace of a raised request contains zero counter increments and
zero histogram observations. -/
theorem C3_raised_request_records_no_samples :
    ((metrics_middleware_trace ⟨"POST", "/data", "/data"⟩ .raised 0).filter
        Event.isCounterInc).length = 0 ∧
    ((metrics_middleware_trace ⟨"POST", "/data", "/data"⟩ .raised 0).filter
        Event.isHistObserve).length = 0 := by
  refine ⟨rfl, rfl⟩

/-- C3 as amended: for every request whose handler returns a response, the
middleware records exactly one counter increment and exactly one histogram
observation, labeled with the method, the raw URL path and the final
status code; a request whose handler raises records neither.  Hence after
any sequence of requests the counter value at each label triple equals the
exact number of completed (response-returning) requests matching that
triple, and likewise the number of histogram observations. -/
theorem C3_counter_equals_completed_requests (reqs : List RequestRecord)
    (l : Labels) (req : Request) (s : Nat) (lat : ℚ) :
    ((metrics_middleware_trace req (.response s) lat).filter Event.isCounterInc =
      [Event.counterInc ⟨req.method, req.urlPath, s⟩]) ∧
    ((metrics_middleware_trace req (.response s) lat).filter Event.isHistObserve =
      [Event.histObserve ⟨req.method, req.urlPath, s⟩ lat]) ∧
    (processAll initialState reqs).request_count l = completedMatching l reqs ∧
    ((processAll initialState reqs).latency_obs l).length = completedMatching l reqs := by
  refine ⟨?_, ?_, ?_, ?_⟩
  · simp [metrics_middleware_trace, List.filter, Event.isCounterInc, Event.isHistObserve]
  · simp [metrics_middleware_trace, List.filter, Event.isCounterInc, Event.isHistObserve]
  · simpa [initialState] using processAll_request_count initialState reqs l
  · simpa [initialState] using processAll_latency_obs_length initialState reqs l

/-- C4: `health_check` is total over the probe outcome.  When the liveness
query succeeds it returns 200 with `\x7bstatus: ok, database: reachable\x7d`;
when the query raises, the exception is caught and converted into a 500
response `\x7bstatus: error, database: unreachable, detail: <message>\x7d`;
no probe outcome escapes the handler as an exception. -/
theorem C4_health_check_catches_every_probe_failure (probe : Except String Unit) :
    (probe = .ok () ∧
      health_check probe = (200, ⟨"ok", "reachable", none⟩)) ∨
    (∃ e, probe = .error e ∧
      health_check probe = (500, ⟨"error", "unreachable", some e⟩)) := by
  cases probe with
  | ok u => cases u; exact Or.inl ⟨rfl, rfl⟩
  | error e => exact Or.inr ⟨e, rfl, rfl⟩

/-- C7: `REQUEST_LATENCY` is declared with exactly the bucket boundaries
0.1, 0.3, 0.5, 1, 3, 5 seconds and exactly the three labels
`method`, `endpoint`, `http_status` — the method, route and status
dimensions of the claim (`endpoint` is the route label, `http_status` the
status label). -/
theorem C7_histogram_buckets_and_labels :
    REQUEST_LATENCY.buckets = [(0.1 : ℚ), 0.3, 0.5, 1, 3, 5] ∧
    REQUEST_LATENCY.labelnames = ["method", "endpoint", "http_status"] ∧
    REQUEST_LATENCY.name = "http_request_duration_seconds" :=
  ⟨rfl, rfl, rfl⟩

/-- C5: for an id matching no record, `PUT /data/\x7bitem_id\x7d` and
`DELETE /data/\x7bitem_id\x7d` both answer 404 `Item not found`; for an
existing id they answer 200 with, respectively, the fully-overwritten
record and the deleted record; every error either endpoint raises is a
404, never a generic server error. -/
theorem C5_update_delete_not_found (db : DB) (item_id : Nat) (d : UserDataCreate) :
    (db.find? (fun r => r.id == item_id) = none →
      update_data db item_id d = .httpError 404 "Item not found" ∧
      delete_data db item_id = .httpError 404 "Item not found") ∧
    (∀ r, db.find? (fun r2 => r2.id == item_id) = some r →
      update_data db item_id d =
        .ok 200 { r with name := d.name, email := d.email, message := d.message } ∧
      delete_data db item_id = .ok 200 r) ∧
    (∀ s det, update_data db item_id d = .httpError s det → s = 404) ∧
    (∀ s det, delete_data db item_id = .httpError s det → s = 404) := by
  refine ⟨?_, ?_, ?_, ?_⟩
  · intro h
    simp [update_data, delete_data, crud.update_user_data, crud.delete_user_data, h]
  · intro r h
    simp [update_data, delete_data, crud.update_user_data, crud.delete_user_data, h]
  · intro s det h
    rcases hf : db.find? (fun r => r.id == item_id) with _ | r <;>
      simp [update_data, crud.update_user_data, hf] at h
    omega
  · intro s det h
    rcases hf : db.find? (fun r => r.id == item_id) with _ | r <;>
      simp [delete_data, crud.delete_user_data, hf] at h
    omega

/-- Witness for C5 at concrete inputs: on a store holding only the record
with id 1, updating or deleting id 2 answers 404, and updating or deleting
id 1 answers 200 with the overwritten / deleted record. -/
theorem C5_update_delete_not_found_witness :
    (update_data [⟨1, "a", "a@x.com", "m"⟩] 2 ⟨"b", "b@x.com", "n"⟩ =
        .httpError 404 "Item not found" ∧
      delete_data [⟨1, "a", "a@x.com", "m"⟩] 2 = .httpError 404 "Item not found") ∧
    (update_data [⟨1, "a", "a@x.com", "m"⟩] 1 ⟨"b", "b@x.com", "n"⟩ =
        .ok 200 ⟨1, "b", "b@x.com", "n"⟩ ∧
      delete_data [⟨1, "a", "a@x.com", "m"⟩] 1 = .ok 200 ⟨1, "a", "a@x.com", "m"⟩) :=
  ⟨(C5_update_delete_not_found [⟨1, "a", "a@x.com", "m"⟩] 2 ⟨"b", "b@x.com", "n"⟩).1
      (by decide),
   (C5_update_delete_not_found [⟨1, "a", "a@x.com", "m"⟩] 1 ⟨"b", "b@x.com", "n"⟩).2.1
      ⟨1, "a", "a@x.com", "m"⟩ (by decide)⟩

/-- C6: the worker's whole iteration body — the CRUD operation and, on
scrape iterations, the `/metrics` scrape — runs inside `try`/`except`, so
any exception it raises is caught and logged as the iteration's error and
the loop continues: every worker produces exactly `m` iteration logs, the
driver gathers exactly `n` workers, and an iteration whose `try` block
raises logs the error instead of propagating it. -/
theorem C6_workers_complete_all_iterations (n m : Nat)
    (envs : Nat → Nat → IterEnv) :
    (loadMain n m envs).length = n ∧
    (∀ logs ∈ loadMain n m envs, logs.length = m) ∧
    (∀ i env e, (tryBody i env).2 = Except.error e →
      (runIter i env).errored = some e) := by
  refine ⟨by simp [loadMain], ?_, ?_⟩
  · intro logs hmem
    simp only [loadMain, List.mem_map] at hmem
    obtain ⟨w, _, rfl⟩ := hmem
    simp [worker]
  · intro i env e h
    rcases htb : tryBody i env with ⟨reqs, exc⟩
    rw [htb] at h
    simp only at h
    subst h
    simp [runIter, htb]

/-- Witness for C6 at the spec's concrete scenario (3 workers, 5 operations
each), plus a concrete iteration whose operation raises: the error is
logged, not propagated. -/
theorem C6_workers_complete_all_iterations_witness :
    (loadMain 3 5 (fun _ _ => ⟨.read, none, [], 0, none, none⟩)).length = 3 ∧
    (worker 5 (fun _ => ⟨.read, none, [], 0, none, none⟩)).length = 5 ∧
    (runIter 2 ⟨.read, some "boom", [], 0, none, none⟩).errored = some "boom" :=
  ⟨(C6_workers_complete_all_iterations 3 5 (fun _ _ => ⟨.read, none, [], 0, none, none⟩)).1,
   (C6_workers_complete_all_iterations 3 5 (fun _ _ => ⟨.read, none, [], 0, none, none⟩)).2.1
      (worker 5 (fun _ => ⟨.read, none, [], 0, none, none⟩)) (by decide),
   (C6_workers_complete_all_iterations 3 5 (fun _ _ => ⟨.read, none, [], 0, none, none⟩)).2.2
      2 ⟨.read, some "boom", [], 0, none, none⟩ "boom" rfl⟩

/-- Did the CRUD part of an iteration run without raising? -/
def opSucceeded (env : IterEnv) : Bool :=
  match (opPhase env).2 with
  | .ok _ => true
  | .error _ => false

theorem opPhase_no_scrape (env : IterEnv) : countScrapes (opPhase env).1 = 0 := by
  rcases env with ⟨op, ff, items, pick, af, sf⟩
  cases op <;> cases ff <;> cases af <;> simp only [opPhase] <;>
    first
      | rfl
      | (split
         · rfl
         · rfl)

theorem runIter_requests (i : Nat) (env : IterEnv) :
    (runIter i env).requests = (tryBody i env).1 := by
  rcases h : tryBody i env with ⟨reqs, exc⟩
  cases exc <;> simp [runIter, h]

theorem tryBody_scrapes (i : Nat) (env : IterEnv) :
    countScrapes (tryBody i env).1 =
      if i % METRICS_EVERY = 0 ∧ opSucceeded env = true then 1 else 0 := by
  rcases hop : opPhase env with ⟨reqs, exc⟩
  have hns : countScrapes reqs = 0 := by
    have h0 := opPhase_no_scrape env
    rw [hop] at h0
    exact h0
  unfold tryBody opSucceeded
  rw [hop]
  cases exc with
  | error e => simp [hns]
  | ok u =>
      by_cases hi : i % METRICS_EVERY = 0
      · cases env.scrapeFails <;>
          simp [hi, countScrapes, List.countP_append, HttpReq.isScrape] <;>
          simpa [countScrapes] using hns
      · simp [hi, hns]

theorem tryBody_mutations (i : Nat) (env : IterEnv) :
    (tryBody i env).1.filter HttpReq.isMutation =
      (opPhase env).1.filter HttpReq.isMutation := by
  rcases hop : opPhase env with ⟨reqs, exc⟩
  unfold tryBody
  rw [hop]
  cases exc with
  | error e => simp
  | ok u =>
      by_cases hi : i % METRICS_EVERY = 0
      · cases env.scrapeFails <;>
          simp [hi, List.filter_append, HttpReq.isMutation]
      · simp [hi]

theorem tryBody_head (i : Nat) (env : IterEnv) (x : HttpReq)
    (h : (opPhase env).1.head? = some x) :
    (tryBody i env).1.head? = some x := by
  rcases hop : opPhase env with ⟨reqs, exc⟩
  rw [hop] at h
  unfold tryBody
  rw [hop]
  cases exc with
  | error e => simpa using h
  | ok u =>
      by_cases hi : i % METRICS_EVERY = 0
      · cases env.scrapeFails <;>
          · simp only [hi]
            cases reqs with
            | nil => simp at h
            | cons a t => simpa using h
      · simpa [hi] using h

/-- C8 counterexample: the worker guards the scrape with
`i % METRICS_EVERY == 0` over the 0-based loop index and places it inside
the `try`, after the CRUD operation.  So (a) a scrape is already issued on
the very first iteration (`i = 0`), which is not a tenth iteration, and
(b) on an iteration with `i % 10 == 0` whose operation raises, no scrape
is issued at all. -/
theorem C8_scrape_on_first_iteration_and_skipped_on_failure :
    countScrapes (runIter 0 ⟨.read, none, [], 0, none, none⟩).requests = 1 ∧
    0 % METRICS_EVERY = 0 ∧
    countScrapes (runIter 0 ⟨.read, some "boom", [], 0, none, none⟩).requests = 0 :=
  ⟨rfl, rfl, rfl⟩

/-- C8 as amended: a worker issues exactly one `/metrics` scrape on
iteration `i` precisely when the 0-based index satisfies
`i % METRICS_EVERY = 0` (iterations 1, 11, 21, ... in 1-based counting,
with `METRICS_EVERY = 10`) and the iteration's CRUD operation did not
raise; on every other iteration, and whenever the operation raised, it
issues none. -/
theorem C8_scrape_iff_index_multiple_of_ten_and_op_ok (i : Nat) (env : IterEnv) :
    countScrapes (runIter i env).requests =
      if i % METRICS_EVERY = 0 ∧ opSucceeded env = true then 1 else 0 := by
  rw [runIter_requests]
  exact tryBody_scrapes i env

/-- C9: on an `update` or `delete` iteration whose fetch succeeds, the
worker first issues `GET /data`; if the fetched list is empty it issues no
`PUT`/`DELETE` at all; if it is nonempty it issues exactly one `PUT`
(resp. `DELETE`) targeting the element of the fetched list selected by the
drawn random index (`random.choice` draws that index uniformly), and that
target is an element of the fetched list. -/
theorem C9_update_delete_fetch_then_pick (i : Nat) (env : IterEnv)
    (hop : env.op = Op.update ∨ env.op = Op.delete)
    (hfetch : env.fetchFails = none) :
    (runIter i env).requests.head? = some (HttpReq.get "/data") ∧
    (env.listItems = [] →
      (runIter i env).requests.filter HttpReq.isMutation = []) ∧
    (∀ h : env.listItems ≠ [],
      (runIter i env).requests.filter HttpReq.isMutation =
        [if env.op = Op.update
         then HttpReq.put ("/data/" ++ toString (chosenItem env.listItems env.pick h).id)
         else HttpReq.del ("/data/" ++ toString (chosenItem env.listItems env.pick h).id)] ∧
      chosenItem env.listItems env.pick h ∈ env.listItems) := by
  have hmut : (runIter i env).requests.filter HttpReq.isMutation =
      (opPhase env).1.filter HttpReq.isMutation := by
    rw [runIter_requests]
    exact tryBody_mutations i env
  have hhead : (opPhase env).1.head? = some (HttpReq.get "/data") := by
    rcases hop with h | h <;>
      · simp only [opPhase, h, hfetch]
        split
        · rfl
        · cases env.actFails <;> rfl
  refine ⟨?_, ?_, ?_⟩
  · rw [runIter_requests]
    exact tryBody_head i env _ hhead
  · intro hempty
    rw [hmut]
    rcases hop with h | h <;> simp [opPhase, h, hfetch, hempty, HttpReq.isMutation]
  · intro hne
    constructor
    · rw [hmut]
      rcases hop with h | h <;>
        · cases haf : env.actFails <;>
            simp [opPhase, h, hfetch, hne, haf, List.filter, HttpReq.isMutation]
    · unfold chosenItem
      exact List.get_mem _ _ _

/-- Witness for C9 at concrete inputs: an `update` iteration over a
two-element fetched list with drawn index 5 targets element `5 % 2 = 1`
(the record with id 2), and a `delete` iteration over an empty fetched
list issues no mutation. -/
theorem C9_update_delete_fetch_then_pick_witness :
    (runIter 3 ⟨.update, none, [⟨1, "a", "a@x.com", "m"⟩, ⟨2, "b", "b@x.com", "n"⟩],
        5, none, none⟩).requests.filter HttpReq.isMutation = [HttpReq.put "/data/2"] ∧
    (runIter 1 ⟨.delete, none, [], 0, none, none⟩).requests.filter HttpReq.isMutation = [] := by
  constructor
  · have h := ((C9_update_delete_fetch_then_pick 3
        ⟨.update, none, [⟨1, "a", "a@x.com", "m"⟩, ⟨2, "b", "b@x.com", "n"⟩],
          5, none, none⟩ (Or.inl rfl) rfl).2.2 (by decide)).1
    exact h.trans (by decide)
  · exact (C9_update_delete_fetch_then_pick 1
        ⟨.delete, none, [], 0, none, none⟩ (Or.inr rfl) rfl).2.1 rfl

/-- C10: `read_data` resolves `skip`/`limit` with defaults 0 and 100 and
passes them to the store query (`crud.get_user_data db skip limit`)
unchanged: any integer values — negative ones included — reach the query
as given, with no validation error and no clamping, and absent parameters
become exactly `skip = 0`, `limit = 100`. -/
theorem C10_skip_limit_passed_through_unclamped (db : DB) (s l : Int) :
    read_data db (some s) (some l) =
      Except.ok ((s, l), (db.drop s.toNat).take l.toNat) ∧
    read_data db none none = Except.ok ((0, 100), db.take 100) :=
  ⟨rfl, rfl⟩

end FastAPIMon
